import Mathlib

/-!
# PSP PNG loader (backends/platform/psp/png_loader.cpp)

A shallow embedding of `PngLoader`: the probe (`allocate`, `findImageDimensions`,
`basicImageLoad`) and the decode (`load`, `loadImageIntoBuffer`).

* The loader object is the record `PngLoader`; every member function takes the
  record and gives back the updated record (explicit state passing).
* The display buffer, the palette, the heap and the decode stage of libpng are
  collaborators that live outside the file.  Every call made on them is
  appended, in program order, to a list of `Event`s; what they answer comes from
  the records `PngLib` (what libpng reports for the stream) and `Host` (whether
  the allocations succeed).  A library call is modelled where it returns: a
  fatal library error enters `errorFn`, which calls `abort()`, and never comes
  back to the code modelled here.
* `uint32` members are natural numbers, reduced modulo 2^32 where the source
  computes or converts; `int` members are integers.
* `assert` ends the run (`Outcome.aborted`) unless the build defines `NDEBUG`;
  so does the quotient of line 200 when its divisor is zero.
* Locals declared without initialiser start with the contents given by `Locals`.
* The destructor and the three callbacks handed to the library (`warningFn`,
  `errorFn`, `libReadFunc`) are not called by the member functions modelled
  here and are left out.
-/

namespace PSP

/-- The values of `PSPPixelFormat::Type` that the loader names. -/
inductive PixelFormat where
  | Type_4444
  | Type_8888
  | Type_Palette_8bit
  | Type_Palette_4bit
  deriving DecidableEq

/-- The enumeration `PngLoader::Status`. -/
inductive Status where
  | OK
  | OUT_OF_MEMORY
  | BAD_FILE
  deriving DecidableEq

/-- One entry of the source palette (`png_color`). -/
structure PngColor where
  red : Nat
  green : Nat
  blue : Nat
  deriving DecidableEq, Inhabited

/-- A call made on a collaborator: the display buffer, the palette, the heap, or
the decode stage of the library. -/
inductive Event where
  | setSize (width height sizeBy : Nat)
  | setPixelFormat (format : PixelFormat)
  | setPixelFormats (paletteType bufferType : PixelFormat)
  | bufferAllocate
  | paletteAllocate
  | setSingleColorRGBA (index r g b a : Nat)
  | setStrip16
  | setExpandGray
  | setTRNSToAlpha
  | setAddAlpha (filler : Nat)  -- always with `PNG_FILLER_AFTER`
  | mallocLine (size : Nat)
  | readRow
  | copyFromRect (stride x y width height : Nat)
  | freeLine
  | readEnd
  | flipNibbles
  deriving DecidableEq

/-- The result of running a member function: it returns a value, or the run is
ended (a failed `assert`, or a division whose divisor is zero). -/
inductive Outcome (α : Type) where
  | returned (a : α)
  | aborted
  deriving DecidableEq

/-- The data members of `PngLoader` that the code reads or writes.
`pngPtr` and `infoPtr` record whether the pointer is non-null; `sizeBy` is the
`Buffer::HowToSize` value, which is only passed on. -/
structure PngLoader where
  width : Nat
  height : Nat
  paletteSize : Nat
  sizeBy : Nat
  bitDepth : Int
  pngPtr : Bool
  infoPtr : Bool
  colorType : Int
  channels : Nat
  deriving DecidableEq

/-- What the library reports for the stream being decoded.
`createReadStruct` and `createInfoStruct` say whether the two structures were
created (non-null).  `width`, `height`, `bitDepth` and `colorType` are what
`png_get_IHDR` stores, `channels` what `png_get_channels` returns.
`plte = some pal` means `png_get_PLTE` returns `PNG_INFO_PLTE` and stores the
entries `pal` and their number; `plte = none` means it returns something else
and stores nothing.  `trns` is the same for `png_get_tRNS` and the transparency
table, and `png_get_valid(PNG_INFO_tRNS)` is non-zero exactly when `trns` is
`some`.  `rowbytes` is the value `png_get_rowbytes` gives once the transforms
are configured. -/
structure PngLib where
  createReadStruct : Bool
  createInfoStruct : Bool
  width : Nat
  height : Nat
  bitDepth : Int
  colorType : Int
  channels : Nat
  plte : Option (List PngColor)
  trns : Option (List Nat)
  rowbytes : Nat

/-- What the host answers during one call: the results of `_buffer->allocate()`,
`_buffer->hasPalette()`, `_palette->allocate()` and `malloc` of the line, and
whether the build defines `NDEBUG`. -/
structure Host where
  bufferAllocate : Bool
  hasPalette : Bool
  paletteAllocate : Bool
  mallocLine : Bool
  ndebug : Bool

/-- The contents of the locals that `loadImageIntoBuffer` declares without an
initialiser (`srcPal`, `numPalette`, `transAlpha`, `numTrans`) at the point of
declaration.  A library query that finds no valid chunk leaves them as they
are. -/
structure Locals where
  srcPal : Nat → PngColor
  numPalette : Int
  transAlpha : Nat → Nat
  numTrans : Int

/-- Conversion of an `int` to `uint32`. -/
def toUint32 (x : Int) : Nat := (x % 4294967296).toNat

/-- The constant `PNG_COLOR_MASK_PALETTE` of png.h. -/
def PNG_COLOR_MASK_PALETTE : Int := 1

/-- The constant `PNG_COLOR_TYPE_GRAY` of png.h. -/
def PNG_COLOR_TYPE_GRAY : Int := 0

/-- The test `_colorType & PNG_COLOR_MASK_PALETTE` of line 141. -/
def hasPaletteBit (colorType : Int) : Bool :=
  Int.land colorType PNG_COLOR_MASK_PALETTE != 0

/-- Lines 120-150, `PngLoader::basicImageLoad`. -/
def basicImageLoad (lib : PngLib) (host : Host) (st : PngLoader) :
    Outcome (Bool × PngLoader) :=
  let st := { st with pngPtr := lib.createReadStruct }
  if !st.pngPtr then .returned (false, st) else
  let st := { st with infoPtr := lib.createInfoStruct }
  if !st.infoPtr then .returned (false, st) else
  let st := { st with width := lib.width, height := lib.height,
                      bitDepth := lib.bitDepth, colorType := lib.colorType }
  let st := { st with channels := lib.channels }
  if hasPaletteBit st.colorType then
    match lib.plte with
    | some pal => .returned (true, { st with paletteSize := toUint32 pal.length })
    | none =>
      -- `ret == PNG_INFO_PLTE` is false; `paletteSize` still holds its initialiser 0
      if host.ndebug then .returned (true, { st with paletteSize := toUint32 0 })
      else .aborted
  else .returned (true, st)

/-- Lines 153-160, `PngLoader::findImageDimensions`. -/
def findImageDimensions (lib : PngLib) (host : Host) (st : PngLoader) :
    Outcome (Bool × PngLoader) :=
  basicImageLoad lib host st

/-- Lines 53-71 of `PngLoader::allocate`: the choice of the pixel formats.
`none` is the `return BAD_FILE` of line 66. -/
def selectFormat (st : PngLoader) : Option (PngLoader × List Event) :=
  let bitsPerPixel := toUint32 st.bitDepth
  if st.paletteSize ≠ 0 then
    if bitsPerPixel = 4 then
      some ({ st with paletteSize := 16 },
        [.setPixelFormat .Type_Palette_4bit,
         .setPixelFormats .Type_4444 .Type_Palette_4bit])
    else if bitsPerPixel = 8 then
      some ({ st with paletteSize := 256 },
        [.setPixelFormat .Type_Palette_8bit,
         .setPixelFormats .Type_4444 .Type_Palette_8bit])
    else none
  else
    some (st, [.setPixelFormat .Type_8888])

/-- Lines 73-81 of `PngLoader::allocate`: the two allocations. -/
def allocateStorage (host : Host) : Status × List Event :=
  if !host.bufferAllocate then (.OUT_OF_MEMORY, [.bufferAllocate])
  else if host.hasPalette && !host.paletteAllocate then
    (.OUT_OF_MEMORY, [.bufferAllocate, .paletteAllocate])
  else if host.hasPalette then (.OK, [.bufferAllocate, .paletteAllocate])
  else (.OK, [.bufferAllocate])

/-- Lines 43-82, `PngLoader::allocate`. -/
def allocate (lib : PngLib) (host : Host) (st : PngLoader) :
    Outcome (Status × PngLoader × List Event) :=
  match findImageDimensions lib host st with
  | .aborted => .aborted
  | .returned (false, st) => .returned (.BAD_FILE, st, [])
  | .returned (true, st) =>
    let ev := [Event.setSize st.width st.height st.sizeBy]
    match selectFormat st with
    | none => .returned (.BAD_FILE, st, ev)
    | some (st, evFormat) =>
      let (status, evAlloc) := allocateStorage host
      .returned (status, st, ev ++ evFormat ++ evAlloc)

/-- Lines 182-186: the palette loop, with `remaining = numPalette - i` rounds
still to run. -/
def paletteLoop (srcPal : Nat → PngColor) (transAlpha : Nat → Nat) (numTrans : Int) :
    (remaining i : Nat) → List Event
  | 0, _ => []
  | n + 1, i =>
    let alphaVal := if (i : Int) < numTrans then transAlpha i else 0xFF
    Event.setSingleColorRGBA i (srcPal i).red (srcPal i).green (srcPal i).blue alphaVal
      :: paletteLoop srcPal transAlpha numTrans n (i + 1)

/-- Lines 175-186: the palette branch of `loadImageIntoBuffer`. -/
def copyPalette (lib : PngLib) (locals : Locals) : List Event :=
  let (srcPal, numPalette) :=
    match lib.plte with
    | some pal => (fun i => pal.getD i default, (pal.length : Int))
    | none => (locals.srcPal, locals.numPalette)
  let (transAlpha, numTrans) :=
    match lib.trns with
    | some alphas => (fun i => alphas.getD i 0, (alphas.length : Int))
    | none => (locals.transAlpha, locals.numTrans)
  paletteLoop srcPal transAlpha numTrans numPalette.toNat 0

/-- Lines 188-193: the transforms requested for an image without palette. -/
def setTransforms (lib : PngLib) (st : PngLoader) : List Event :=
  (if st.colorType = PNG_COLOR_TYPE_GRAY ∧ st.bitDepth < 8 then [Event.setExpandGray] else [])
    ++ (if lib.trns.isSome then [Event.setTRNSToAlpha] else [])
    ++ [Event.setAddAlpha 0xff]

/-- Lines 196-203: the row stride and the channel count after the check for the
library not having counted the added alpha channel.  The quotient is only
evaluated when `_channels == 3`. -/
def reconcileStride (channels width reported : Nat) : Nat × Nat :=
  let rowBytes := reported % 4294967296
  if channels = 3 ∧ rowBytes / width = 3 then (4, (width * 4) % 4294967296)
  else (channels, rowBytes)

/-- Lines 213-216: the row loop, with `remaining = _height - y` rounds still to
run. -/
def rowLoop (width rowBytes : Nat) : (remaining y : Nat) → List Event
  | 0, _ => []
  | n + 1, y =>
    Event.readRow :: Event.copyFromRect rowBytes 0 y width 1
      :: rowLoop width rowBytes n (y + 1)

/-- Lines 171-194: the transform configuration, which ends before the row
stride is read. -/
def configEvents (lib : PngLib) (locals : Locals) (st : PngLoader) : List Event :=
  Event.setStrip16 ::
    (if st.paletteSize ≠ 0 then copyPalette lib locals else setTransforms lib st)

/-- Lines 165-221, `PngLoader::loadImageIntoBuffer`.  The run ends at the
`assert` of line 169 when there is no session, and at the quotient of line 200
when it is evaluated with `_width == 0`. -/
def loadImageIntoBuffer (lib : PngLib) (host : Host) (locals : Locals) (st : PngLoader) :
    Outcome (Bool × PngLoader × List Event) :=
  if !host.ndebug && !st.pngPtr then .aborted else
  let ev := configEvents lib locals st
  if st.channels = 3 ∧ st.width = 0 then .aborted else
  let (channels, rowBytes) := reconcileStride st.channels st.width lib.rowbytes
  let st := { st with channels := channels }
  let ev := ev ++ [Event.mallocLine rowBytes]
  if !host.mallocLine then .returned (false, st, ev) else
  let ev := ev ++ rowLoop st.width rowBytes st.height 0
  .returned (true, st, ev ++ [Event.freeLine, Event.readEnd])

/-- Lines 84-98, `PngLoader::load`. -/
def load (lib : PngLib) (host : Host) (locals : Locals) (st : PngLoader) :
    Outcome (Bool × PngLoader × List Event) :=
  match loadImageIntoBuffer lib host locals st with
  | .aborted => .aborted
  | .returned (false, st, ev) => .returned (false, st, ev)
  | .returned (true, st, ev) =>
    if st.bitDepth = 4 then .returned (true, st, ev ++ [Event.flipNibbles])
    else .returned (true, st, ev)

/-! ## Reading the calls back from the event list -/

/-- The pixel format the buffer holds after the calls, if one was set. -/
def bufferFormat (evs : List Event) : Option PixelFormat :=
  evs.foldl (fun acc e => match e with
    | .setPixelFormat f => some f
    | _ => acc) none

/-- The pair of formats the palette holds after the calls, if one was set: the
format of its entries and the format of the buffer it serves. -/
def paletteFormats (evs : List Event) : Option (PixelFormat × PixelFormat) :=
  evs.foldl (fun acc e => match e with
    | .setPixelFormats a b => some (a, b)
    | _ => acc) none

/-- The number of times the buffer was told to flip its nibbles. -/
def flipCount (evs : List Event) : Nat := evs.count Event.flipNibbles

/-- A loader on which nothing has run yet: no session, every field zero. -/
def newLoader (sizeBy : Nat) : PngLoader :=
  { width := 0, height := 0, paletteSize := 0, sizeBy := sizeBy, bitDepth := 0,
    pngPtr := false, infoPtr := false, colorType := 0, channels := 0 }

/-- A host on which every allocation succeeds and the buffer has a palette
exactly when `pal` says so; assertions are compiled in. -/
def hostOk (pal : Bool) : Host :=
  { bufferAllocate := true, hasPalette := pal, paletteAllocate := true,
    mallocLine := true, ndebug := false }

/-- A 4-bit paletted image of 3 by 2 pixels with three palette entries and a
transparency table of two entries. -/
def pal4Lib : PngLib :=
  { createReadStruct := true, createInfoStruct := true, width := 3, height := 2,
    bitDepth := 4, colorType := 3, channels := 1,
    plte := some [⟨10, 20, 30⟩, ⟨40, 50, 60⟩, ⟨70, 80, 90⟩],
    trns := some [0, 128], rowbytes := 2 }

/-- The loader after the probe of `pal4Lib`. -/
def pal4Probed : PngLoader :=
  { width := 3, height := 2, paletteSize := 3, sizeBy := 0, bitDepth := 4,
    pngPtr := true, infoPtr := true, colorType := 3, channels := 1 }

/-- A paletted image whose header gives the bit depth 2. -/
def pal2Lib : PngLib :=
  { createReadStruct := true, createInfoStruct := true, width := 4, height := 1,
    bitDepth := 2, colorType := 3, channels := 1,
    plte := some [⟨0, 0, 0⟩, ⟨255, 255, 255⟩], trns := none, rowbytes := 1 }

/-- The loader after the probe of `pal2Lib`. -/
def pal2Probed : PngLoader :=
  { width := 4, height := 1, paletteSize := 2, sizeBy := 0, bitDepth := 2,
    pngPtr := true, infoPtr := true, colorType := 3, channels := 1 }

/-- An image whose colour type is the palette type while the library has no
valid palette chunk for it. -/
def missingPlteLib : PngLib :=
  { createReadStruct := true, createInfoStruct := true, width := 1, height := 1,
    bitDepth := 8, colorType := 3, channels := 1, plte := none, trns := none,
    rowbytes := 1 }

/-- The row calls in the words of the specification: for each row `y` of
`[0, height)`, one row is read and then copied to the rectangle at `x = 0`, row
`y`, of width `width` and height 1. -/
def rowCallsSpec (width stride height : Nat) : List Event :=
  (List.range height).flatMap fun y =>
    [Event.readRow, Event.copyFromRect stride 0 y width 1]

/-- The palette calls in the words of the specification: entry `i` of
`[0, n)` is set to the colour of source entry `i`, with the alpha of the
transparency table where the table reaches `i`, and 0xFF beyond it. -/
def paletteCallsSpec (pal : List PngColor) (alphas : List Nat) : List Event :=
  (List.range pal.length).map fun i =>
    Event.setSingleColorRGBA i (pal.getD i default).red (pal.getD i default).green
      (pal.getD i default).blue (if i < alphas.length then alphas.getD i 0 else 0xFF)

/-- A truecolour image of 2 by 2 pixels for which the library still reports
three bytes per pixel after the alpha filler was requested. -/
def rgbLib : PngLib :=
  { createReadStruct := true, createInfoStruct := true, width := 2, height := 2,
    bitDepth := 8, colorType := 2, channels := 3, plte := none, trns := none,
    rowbytes := 6 }

/-- The loader after `allocate` on `rgbLib`. -/
def rgbProbed : PngLoader :=
  { width := 2, height := 2, paletteSize := 0, sizeBy := 0, bitDepth := 8,
    pngPtr := true, infoPtr := true, colorType := 2, channels := 3 }

/-- An 8-bit paletted image of 1 by 1 pixel with the single palette entry
(10, 20, 30) and no transparency chunk. -/
def pal8NoTrnsLib : PngLib :=
  { createReadStruct := true, createInfoStruct := true, width := 1, height := 1,
    bitDepth := 8, colorType := 3, channels := 1, plte := some [⟨10, 20, 30⟩],
    trns := none, rowbytes := 1 }

/-- The loader after `allocate` on `pal8NoTrnsLib`. -/
def pal8Allocated : PngLoader :=
  { width := 1, height := 1, paletteSize := 256, sizeBy := 0, bitDepth := 8,
    pngPtr := true, infoPtr := true, colorType := 3, channels := 1 }

/-- Locals whose slot for `numTrans` holds 1 and whose `transAlpha` points at
zero bytes when `loadImageIntoBuffer` is entered. -/
def staleLocals : Locals :=
  { srcPal := fun _ => default, numPalette := 0, transAlpha := fun _ => 0, numTrans := 1 }

/-- A 4-bit grayscale image of 2 by 1 pixels, without palette and without
transparency chunk; the library reports the row of the header, one byte. -/
def gray4Lib : PngLib :=
  { createReadStruct := true, createInfoStruct := true, width := 2, height := 1,
    bitDepth := 4, colorType := 0, channels := 1, plte := none, trns := none,
    rowbytes := 1 }

/-- The loader after `allocate` on `gray4Lib`. -/
def gray4Probed : PngLoader :=
  { width := 2, height := 1, paletteSize := 0, sizeBy := 0, bitDepth := 4,
    pngPtr := true, infoPtr := true, colorType := 0, channels := 1 }

/-- The loader after `allocate` on `pal4Lib`: the palette size is rounded up. -/
def pal4Allocated : PngLoader :=
  { width := 3, height := 2, paletteSize := 16, sizeBy := 0, bitDepth := 4,
    pngPtr := true, infoPtr := true, colorType := 3, channels := 1 }

/-- A host whose buffer allocation succeeds, whose buffer has a palette, and
whose palette allocation fails. -/
def hostPaletteFails : Host :=
  { bufferAllocate := true, hasPalette := true, paletteAllocate := false,
    mallocLine := true, ndebug := false }

/-! ## The probe: `allocate` -/

/-- What `selectFormat` answers, case by case. -/
theorem selectFormat_cases (st : PngLoader) :
    (st.paletteSize ≠ 0 ∧ toUint32 st.bitDepth = 4 ∧
      selectFormat st = some ({ st with paletteSize := 16 },
        [.setPixelFormat .Type_Palette_4bit,
         .setPixelFormats .Type_4444 .Type_Palette_4bit])) ∨
    (st.paletteSize ≠ 0 ∧ toUint32 st.bitDepth ≠ 4 ∧ toUint32 st.bitDepth = 8 ∧
      selectFormat st = some ({ st with paletteSize := 256 },
        [.setPixelFormat .Type_Palette_8bit,
         .setPixelFormats .Type_4444 .Type_Palette_8bit])) ∨
    (st.paletteSize ≠ 0 ∧ toUint32 st.bitDepth ≠ 4 ∧ toUint32 st.bitDepth ≠ 8 ∧
      selectFormat st = none) ∨
    (st.paletteSize = 0 ∧ selectFormat st = some (st, [.setPixelFormat .Type_8888])) := by
  unfold selectFormat
  by_cases hp : st.paletteSize = 0
  · simp [hp]
  · by_cases h4 : toUint32 st.bitDepth = 4
    · simp [hp, h4]
    · by_cases h8 : toUint32 st.bitDepth = 8
      · simp [hp, h8]
      · simp [hp, h4, h8]

/-- An `int` in range is 4 or 8 after conversion to `uint32` only if it was 4
or 8 before. -/
theorem toUint32_eq_small (x : Int) (k : Nat) (hk : k < 2147483648)
    (hlo : -2147483648 ≤ x) (hhi : x < 2147483648) :
    toUint32 x = k ↔ x = k := by
  unfold toUint32
  constructor
  · intro h
    have h1 : (x % 4294967296) = (k : Int) := by
      have := Int.toNat_of_nonneg (Int.emod_nonneg x (by norm_num : (4294967296 : Int) ≠ 0))
      omega
    omega
  · intro h
    subst h
    omega

/-- How `allocate` continues once the probe has returned true. -/
theorem allocate_after_probe (lib : PngLib) (host : Host) (st st1 : PngLoader)
    (hprobe : findImageDimensions lib host st = .returned (true, st1)) :
    allocate lib host st =
      match selectFormat st1 with
      | none => .returned (.BAD_FILE, st1, [Event.setSize st1.width st1.height st1.sizeBy])
      | some (st2, evFormat) =>
        .returned ((allocateStorage host).1, st2,
          [Event.setSize st1.width st1.height st1.sizeBy] ++ evFormat
            ++ (allocateStorage host).2) := by
  unfold allocate
  rw [hprobe]

/-- C1. Whenever the probe inside `allocate` has returned true with the state
`st1`, the formats chosen follow the policy table: a paletted image of bit depth
4 gets the buffer format `Type_Palette_4bit`, the palette formats
(`Type_4444`, `Type_Palette_4bit`) and the palette size 16; a paletted image
of bit depth 8 gets `Type_Palette_8bit`, (`Type_4444`, `Type_Palette_8bit`) and
256; an image without palette gets `Type_8888`, no palette format, and keeps the
palette size 0. -/
theorem allocate_format_policy (lib : PngLib) (host : Host) (st st1 : PngLoader)
    (hprobe : findImageDimensions lib host st = .returned (true, st1)) :
    (0 < st1.paletteSize → st1.bitDepth = 4 →
      ∃ status evs, allocate lib host st
          = .returned (status, { st1 with paletteSize := 16 }, evs) ∧
        bufferFormat evs = some .Type_Palette_4bit ∧
        paletteFormats evs = some (.Type_4444, .Type_Palette_4bit)) ∧
    (0 < st1.paletteSize → st1.bitDepth = 8 →
      ∃ status evs, allocate lib host st
          = .returned (status, { st1 with paletteSize := 256 }, evs) ∧
        bufferFormat evs = some .Type_Palette_8bit ∧
        paletteFormats evs = some (.Type_4444, .Type_Palette_8bit)) ∧
    (st1.paletteSize = 0 →
      ∃ status evs, allocate lib host st = .returned (status, st1, evs) ∧
        st1.paletteSize = 0 ∧
        bufferFormat evs = some .Type_8888 ∧
        paletteFormats evs = none) := by
  rw [allocate_after_probe lib host st st1 hprobe]
  obtain ⟨a, b, c, d, e⟩ := host
  refine ⟨?_, ?_, ?_⟩
  · intro hp hb
    have hp0 : st1.paletteSize ≠ 0 := by omega
    have h4 : toUint32 st1.bitDepth = 4 := by rw [hb]; rfl
    simp only [selectFormat, hp0, h4, ne_eq, not_false_eq_true, if_true]
    refine ⟨_, _, rfl, ?_, ?_⟩ <;>
      cases a <;> cases b <;> cases c <;> rfl
  · intro hp hb
    have hp0 : st1.paletteSize ≠ 0 := by omega
    have h8 : toUint32 st1.bitDepth = 8 := by rw [hb]; rfl
    have h4 : toUint32 st1.bitDepth ≠ 4 := by rw [h8]; decide
    simp only [selectFormat, hp0, h4, h8, ne_eq, not_false_eq_true, if_true, if_false]
    refine ⟨_, _, rfl, ?_, ?_⟩ <;>
      cases a <;> cases b <;> cases c <;> rfl
  · intro hp
    simp only [selectFormat, hp, ne_eq, not_true_eq_false, if_false]
    refine ⟨_, _, rfl, trivial, ?_, ?_⟩ <;>
      cases a <;> cases b <;> cases c <;> rfl

/-- The 4-bit paletted sample image passes the probe and gets the 4-bit row of
the policy table. -/
theorem allocate_format_policy_witness :
    findImageDimensions pal4Lib (hostOk true) (newLoader 0) = .returned (true, pal4Probed) ∧
    ∃ status evs, allocate pal4Lib (hostOk true) (newLoader 0)
        = .returned (status, { pal4Probed with paletteSize := 16 }, evs) ∧
      bufferFormat evs = some .Type_Palette_4bit ∧
      paletteFormats evs = some (.Type_4444, .Type_Palette_4bit) :=
  ⟨by decide,
   (allocate_format_policy pal4Lib (hostOk true) (newLoader 0) pal4Probed (by decide)).1
     (by decide) (by decide)⟩

/-- C2. Whenever the probe inside `allocate` has returned true with a paletted
state whose bit depth is neither 4 nor 8, `allocate` returns `BAD_FILE`; the
state it leaves is the probed one, so the palette size is unchanged, and the only
call made is `setSize`: no pixel format is set and neither allocation is
attempted. -/
theorem allocate_bad_palette_depth (lib : PngLib) (host : Host) (st st1 : PngLoader)
    (hprobe : findImageDimensions lib host st = .returned (true, st1))
    (hlo : -2147483648 ≤ st1.bitDepth) (hhi : st1.bitDepth < 2147483648)
    (hpal : 0 < st1.paletteSize) (h4 : st1.bitDepth ≠ 4) (h8 : st1.bitDepth ≠ 8) :
    ∃ evs, allocate lib host st = .returned (.BAD_FILE, st1, evs) ∧
      evs = [Event.setSize st1.width st1.height st1.sizeBy] ∧
      bufferFormat evs = none ∧ paletteFormats evs = none ∧
      Event.bufferAllocate ∉ evs ∧ Event.paletteAllocate ∉ evs := by
  rw [allocate_after_probe lib host st st1 hprobe]
  have hp0 : st1.paletteSize ≠ 0 := by omega
  have k4 : toUint32 st1.bitDepth ≠ 4 := fun h =>
    h4 ((toUint32_eq_small st1.bitDepth 4 (by norm_num) hlo hhi).1 h)
  have k8 : toUint32 st1.bitDepth ≠ 8 := fun h =>
    h8 ((toUint32_eq_small st1.bitDepth 8 (by norm_num) hlo hhi).1 h)
  simp only [selectFormat, hp0, k4, k8, ne_eq, not_false_eq_true, if_true, if_false]
  exact ⟨_, rfl, rfl, rfl, rfl, by simp, by simp⟩

/-- The paletted sample image of bit depth 2 is refused. -/
theorem allocate_bad_palette_depth_witness :
    findImageDimensions pal2Lib (hostOk true) (newLoader 0) = .returned (true, pal2Probed) ∧
    ∃ evs, allocate pal2Lib (hostOk true) (newLoader 0)
        = .returned (.BAD_FILE, pal2Probed, evs) ∧
      evs = [Event.setSize pal2Probed.width pal2Probed.height pal2Probed.sizeBy] ∧
      bufferFormat evs = none ∧ paletteFormats evs = none ∧
      Event.bufferAllocate ∉ evs ∧ Event.paletteAllocate ∉ evs :=
  ⟨by decide,
   allocate_bad_palette_depth pal2Lib (hostOk true) (newLoader 0) pal2Probed (by decide)
     (by decide) (by decide) (by decide) (by decide) (by decide)⟩

/-- The format stage never asks for an allocation. -/
theorem selectFormat_no_allocation (st st2 : PngLoader) (evFormat : List Event)
    (hsel : selectFormat st = some (st2, evFormat)) :
    Event.bufferAllocate ∉ evFormat ∧ Event.paletteAllocate ∉ evFormat := by
  rcases selectFormat_cases st with h | h | h | h
  · rw [h.2.2] at hsel
    cases hsel
    simp
  · rw [h.2.2.2] at hsel
    cases hsel
    simp
  · rw [h.2.2.2] at hsel
    cases hsel
  · rw [h.2] at hsel
    cases hsel
    simp

/-- C3. Once the probe has returned true and the format stage has succeeded,
`allocate` returns `OUT_OF_MEMORY` exactly when the buffer allocation fails, or
the buffer reports a palette and the palette allocation fails; in every other
case it returns `OK`.  The buffer allocation is always attempted, and the
palette allocation is attempted exactly when the buffer allocation succeeded
and the buffer reports a palette. -/
theorem allocate_storage_status (lib : PngLib) (host : Host) (st st1 st2 : PngLoader)
    (evFormat : List Event)
    (hprobe : findImageDimensions lib host st = .returned (true, st1))
    (hsel : selectFormat st1 = some (st2, evFormat)) :
    ∃ status evs, allocate lib host st = .returned (status, st2, evs) ∧
      (status = .OUT_OF_MEMORY ↔
        (host.bufferAllocate = false ∨
          (host.hasPalette = true ∧ host.paletteAllocate = false))) ∧
      (status ≠ .OUT_OF_MEMORY → status = .OK) ∧
      Event.bufferAllocate ∈ evs ∧
      (Event.paletteAllocate ∈ evs ↔
        (host.bufferAllocate = true ∧ host.hasPalette = true)) := by
  rw [allocate_after_probe lib host st st1 hprobe, hsel]
  obtain ⟨hb, hp⟩ := selectFormat_no_allocation st1 st2 evFormat hsel
  obtain ⟨a, b, c, d, e⟩ := host
  refine ⟨_, _, rfl, ?_, ?_, ?_, ?_⟩ <;>
    cases a <;> cases b <;> cases c <;> simp [allocateStorage, hp]

/-- On the 4-bit paletted sample image, with a host whose palette allocation
fails, `allocate` returns `OUT_OF_MEMORY` after attempting both allocations. -/
theorem allocate_storage_status_witness :
    findImageDimensions pal4Lib hostPaletteFails (newLoader 0)
      = .returned (true, pal4Probed) ∧
    selectFormat pal4Probed = some (pal4Allocated,
      [.setPixelFormat .Type_Palette_4bit,
       .setPixelFormats .Type_4444 .Type_Palette_4bit]) ∧
    ∃ status evs, allocate pal4Lib hostPaletteFails (newLoader 0)
        = .returned (status, pal4Allocated, evs) ∧
      (status = .OUT_OF_MEMORY ↔
        (hostPaletteFails.bufferAllocate = false ∨
          (hostPaletteFails.hasPalette = true ∧ hostPaletteFails.paletteAllocate = false))) ∧
      (status ≠ .OUT_OF_MEMORY → status = .OK) ∧
      Event.bufferAllocate ∈ evs ∧
      (Event.paletteAllocate ∈ evs ↔
        (hostPaletteFails.bufferAllocate = true ∧ hostPaletteFails.hasPalette = true)) :=
  ⟨by decide, by decide,
   allocate_storage_status pal4Lib hostPaletteFails (newLoader 0) pal4Probed pal4Allocated
     [.setPixelFormat .Type_Palette_4bit, .setPixelFormats .Type_4444 .Type_Palette_4bit]
     (by decide) (by decide)⟩

/-- C4, refuted as stated. For the sample image whose colour type is the palette
type and whose palette query fails, with assertions compiled in, `allocate`
does not return `BAD_FILE`: the run ends at the assertion of line 145 before any
status is returned. -/
theorem allocate_missing_plte_counterexample :
    hasPaletteBit missingPlteLib.colorType = true ∧ missingPlteLib.plte = none ∧
    allocate missingPlteLib (hostOk false) (newLoader 0) = .aborted ∧
    ¬ ∃ st2 evs, allocate missingPlteLib (hostOk false) (newLoader 0)
        = .returned (.BAD_FILE, st2, evs) := by
  refine ⟨by decide, rfl, by decide, ?_⟩
  rintro ⟨st2, evs, h⟩
  have h0 : allocate missingPlteLib (hostOk false) (newLoader 0) = .aborted := by decide
  rw [h0] at h
  cases h

/-- C4, amended. When both library structures are created, the colour type has
the palette bit and the palette query does not report a valid palette, the
probe never returns `BAD_FILE`; with assertions compiled in, `allocate` returns
no status at all, because the run ends at the assertion of line 145. -/
theorem allocate_missing_plte (lib : PngLib) (host : Host) (st : PngLoader)
    (hread : lib.createReadStruct = true) (hinfo : lib.createInfoStruct = true)
    (hmask : hasPaletteBit lib.colorType = true) (hplte : lib.plte = none) :
    (host.ndebug = false → allocate lib host st = .aborted) ∧
    (∀ st2 evs, allocate lib host st ≠ .returned (.BAD_FILE, st2, evs)) := by
  obtain ⟨a, b, c, d, e⟩ := host
  cases e
  · have h0 : allocate lib ⟨a, b, c, d, false⟩ st = .aborted := by
      simp [allocate, findImageDimensions, basicImageLoad, hread, hinfo, hmask, hplte]
    refine ⟨fun _ => h0, ?_⟩
    intro st2 evs h
    rw [h0] at h
    cases h
  · refine ⟨fun h => Bool.noConfusion h, ?_⟩
    intro st2 evs h
    simp [allocate, findImageDimensions, basicImageLoad, hread, hinfo, hmask, hplte,
      selectFormat, toUint32] at h
    revert h
    cases a <;> cases b <;> cases c <;> simp [allocateStorage]

/-- The sample image without palette chunk ends the run at the assertion. -/
theorem allocate_missing_plte_witness :
    (((hostOk false).ndebug = false →
        allocate missingPlteLib (hostOk false) (newLoader 0) = .aborted) ∧
      (∀ st2 evs, allocate missingPlteLib (hostOk false) (newLoader 0)
        ≠ .returned (.BAD_FILE, st2, evs))) :=
  allocate_missing_plte missingPlteLib (hostOk false) (newLoader 0) rfl rfl (by decide) rfl

/-! ## The decode: `loadImageIntoBuffer` and `load` -/

theorem rowLoop_shift (width rowBytes n y : Nat) :
    rowLoop width rowBytes n y =
      (List.range n).flatMap fun k =>
        [Event.readRow, Event.copyFromRect rowBytes 0 (y + k) width 1] := by
  induction n generalizing y with
  | zero => rfl
  | succ n ih =>
    rw [rowLoop, ih, List.range_succ_eq_map]
    simp only [List.flatMap_cons, List.flatMap_map, Nat.add_zero, List.cons_append,
      List.nil_append, List.cons.injEq, true_and]
    congr 1
    funext k
    simp [Nat.succ_eq_add_one, Nat.add_assoc, Nat.add_comm 1 k]

/-- The row loop of the code makes the row calls the specification words. -/
theorem rowLoop_eq_spec (width rowBytes height : Nat) :
    rowLoop width rowBytes height 0 = rowCallsSpec width rowBytes height := by
  rw [rowLoop_shift]
  simp [rowCallsSpec]

theorem paletteLoop_shift (srcPal : Nat → PngColor) (transAlpha : Nat → Nat)
    (numTrans : Int) (n i : Nat) :
    paletteLoop srcPal transAlpha numTrans n i =
      (List.range n).map fun k =>
        Event.setSingleColorRGBA (i + k) (srcPal (i + k)).red (srcPal (i + k)).green
          (srcPal (i + k)).blue
          (if ((i + k : Nat) : Int) < numTrans then transAlpha (i + k) else 0xFF) := by
  induction n generalizing i with
  | zero => rfl
  | succ n ih =>
    rw [paletteLoop, ih, List.range_succ_eq_map]
    simp only [List.map_cons, List.map_map, Nat.add_zero, List.cons.injEq, true_and]
    congr 1
    funext k
    simp [Nat.succ_eq_add_one, Nat.add_assoc, Nat.add_comm 1 k]

/-- With both chunks valid, the palette branch makes the palette calls the
specification words, whatever the locals held before. -/
theorem copyPalette_eq_spec (lib : PngLib) (locals : Locals) (pal : List PngColor)
    (alphas : List Nat) (hplte : lib.plte = some pal) (htrns : lib.trns = some alphas) :
    copyPalette lib locals = paletteCallsSpec pal alphas := by
  simp only [copyPalette, hplte, htrns, paletteCallsSpec, Int.toNat_ofNat]
  rw [paletteLoop_shift]
  simp

/-- What `loadImageIntoBuffer` does whenever a session exists and the width is
positive. -/
theorem loadImageIntoBuffer_eq (lib : PngLib) (host : Host) (locals : Locals)
    (st : PngLoader) (hptr : st.pngPtr = true) (hw : 0 < st.width) :
    loadImageIntoBuffer lib host locals st =
      .returned (host.mallocLine,
        { st with channels := (reconcileStride st.channels st.width lib.rowbytes).1 },
        configEvents lib locals st
          ++ Event.mallocLine (reconcileStride st.channels st.width lib.rowbytes).2
          :: (if host.mallocLine = true then
                rowCallsSpec st.width (reconcileStride st.channels st.width lib.rowbytes).2
                    st.height ++ [Event.freeLine, Event.readEnd]
              else [])) := by
  have hw0 : st.width ≠ 0 := by omega
  unfold loadImageIntoBuffer
  cases hm : host.mallocLine <;>
    simp [hptr, hw0, hm, rowLoop_eq_spec]

/-- C5, failing input. The 8-bit paletted sample image has one palette entry
(10, 20, 30) and no transparency chunk, so `png_get_tRNS` leaves `numTrans` and
`transAlpha` as they were declared: without initialiser.  With 1 in the slot of
`numTrans` the loop takes the alpha of entry 0 from `transAlpha[0]`, here 0, and
not 0xFF. -/
theorem loadImageIntoBuffer_alpha_without_trns :
    pal8NoTrnsLib.trns = none ∧
    allocate pal8NoTrnsLib (hostOk true) (newLoader 0)
      = .returned (.OK, pal8Allocated,
          [.setSize 1 1 0, .setPixelFormat .Type_Palette_8bit,
           .setPixelFormats .Type_4444 .Type_Palette_8bit,
           .bufferAllocate, .paletteAllocate]) ∧
    loadImageIntoBuffer pal8NoTrnsLib (hostOk true) staleLocals pal8Allocated
      = .returned (true, pal8Allocated,
          [.setStrip16, .setSingleColorRGBA 0 10 20 30 0, .mallocLine 1,
           .readRow, .copyFromRect 1 0 0 1 1, .freeLine, .readEnd]) := by
  refine ⟨rfl, by decide, by decide⟩

/-- C9, failing input. The 4-bit grayscale sample image has no palette:
`allocate` returns `OK` with the palette size 0 and the buffer format
`Type_8888`, and the `load` that follows still tells the buffer to flip its
nibbles. -/
theorem load_flips_rgba_buffer :
    allocate gray4Lib (hostOk false) (newLoader 0)
      = .returned (.OK, gray4Probed,
          [.setSize 2 1 0, .setPixelFormat .Type_8888, .bufferAllocate]) ∧
    gray4Probed.paletteSize = 0 ∧
    bufferFormat [.setSize 2 1 0, .setPixelFormat .Type_8888, .bufferAllocate]
      = some .Type_8888 ∧
    load gray4Lib (hostOk false) staleLocals gray4Probed
      = .returned (true, gray4Probed,
          [.setStrip16, .setExpandGray, .setAddAlpha 255, .mallocLine 1,
           .readRow, .copyFromRect 1 0 0 2 1, .freeLine, .readEnd, .flipNibbles]) ∧
    flipCount [.setStrip16, .setExpandGray, .setAddAlpha 255, .mallocLine 1,
           .readRow, .copyFromRect 1 0 0 2 1, .freeLine, .readEnd, .flipNibbles] = 1 := by
  decide

/-- C10. With a session, a positive width with width × 4 < 2^32 and a reported
stride `r` that fits 32 bits, the size passed to `malloc` is the reconciled
stride, it is at least `r`, and when the override fires (three channels and
`r / width = 3`) it is width × 4 and strictly greater than `r`. -/
theorem loadImageIntoBuffer_line_never_shrinks (lib : PngLib) (host : Host) (locals : Locals)
    (st : PngLoader) (hptr : st.pngPtr = true) (hw : 0 < st.width)
    (hw4 : st.width * 4 < 4294967296) (hr : lib.rowbytes < 4294967296) :
    ∃ ok st1 stride rest,
      loadImageIntoBuffer lib host locals st
        = .returned (ok, st1,
            configEvents lib locals st ++ Event.mallocLine stride :: rest) ∧
      stride = (reconcileStride st.channels st.width lib.rowbytes).2 ∧
      lib.rowbytes ≤ stride ∧
      (st.channels = 3 ∧ lib.rowbytes / st.width = 3 →
        stride = st.width * 4 ∧ lib.rowbytes < stride) := by
  refine ⟨_, _, _, _, loadImageIntoBuffer_eq lib host locals st hptr hw, rfl, ?_, ?_⟩
  · have hmod : lib.rowbytes % 4294967296 = lib.rowbytes := Nat.mod_eq_of_lt hr
    unfold reconcileStride
    simp only [hmod]
    split
    · rename_i h
      have hq : lib.rowbytes / st.width < 4 := by omega
      have := (Nat.div_lt_iff_lt_mul hw).1 hq
      rw [Nat.mod_eq_of_lt hw4]
      show lib.rowbytes ≤ st.width * 4
      omega
    · exact Nat.le_refl _
  · intro h
    have hmod : lib.rowbytes % 4294967296 = lib.rowbytes := Nat.mod_eq_of_lt hr
    have hq : lib.rowbytes / st.width < 4 := by omega
    have hlt := (Nat.div_lt_iff_lt_mul hw).1 hq
    simp only [reconcileStride, hmod, h, and_self, if_true, Nat.mod_eq_of_lt hw4]
    exact ⟨trivial, by omega⟩

/-- On the truecolour sample image the stride grows from 6 to 8. -/
theorem loadImageIntoBuffer_line_never_shrinks_witness :
    rgbProbed.pngPtr = true ∧ 0 < rgbProbed.width ∧ rgbProbed.width * 4 < 4294967296 ∧
    rgbLib.rowbytes < 4294967296 ∧
    ∃ ok st1 stride rest,
      loadImageIntoBuffer rgbLib (hostOk false) staleLocals rgbProbed
        = .returned (ok, st1,
            configEvents rgbLib staleLocals rgbProbed ++ Event.mallocLine stride :: rest) ∧
      stride = (reconcileStride rgbProbed.channels rgbProbed.width rgbLib.rowbytes).2 ∧
      rgbLib.rowbytes ≤ stride ∧
      (rgbProbed.channels = 3 ∧ rgbLib.rowbytes / rgbProbed.width = 3 →
        stride = rgbProbed.width * 4 ∧ rgbLib.rowbytes < stride) :=
  ⟨rfl, by decide, by decide, by decide,
   loadImageIntoBuffer_line_never_shrinks rgbLib (hostOk false) staleLocals rgbProbed rfl (by decide)
     (by decide) (by decide)⟩

end PSP
